import Mathlib

/-!
Verification of the SNIST dataset pipeline (snist/dataset.py).

The embedding models:
* numpy arrays and torch tensors as shape + dtype + flat element list
  (element values as rationals; a dtype cast changes only the dtype tag);
* the filesystem as an association list from path strings to file contents;
* the converter functions `read_amplitude_file` / `read_velocity_file`;
* the orchestration `SNIST.download`, construction `SNIST.__init__`,
  indexed access `SNIST.__getitem__`, `SNIST.__len__`, `SNIST._check_exists`,
  and the deprecated property accessors.

Side effects (network fetches, conversions, serialized writes, deserializing
loads) are recorded in an explicit event trace.
-/

/-- Element dtypes that matter for this pipeline: `.float()` casts to float32. -/
inductive DType
  | float32
  | float64
  | int64
deriving DecidableEq, Repr

/-- A numpy ndarray: shape tuple, dtype, and elements in row-major order. -/
structure NDArray where
  shape : List Nat
  dtype : DType
  data : List Rat
deriving DecidableEq, Repr

/-- A torch tensor: shape, dtype, and elements in row-major order. -/
structure Tensor where
  shape : List Nat
  dtype : DType
  data : List Rat
deriving DecidableEq, Repr

/-- `torch.from_numpy` shares shape, dtype and storage. -/
def torch_from_numpy (a : NDArray) : Tensor :=
  { shape := a.shape, dtype := a.dtype, data := a.data }

/-- Number of elements of a tensor (`Tensor.numel`). -/
def Tensor.numel (t : Tensor) : Nat := t.shape.prod

/-- Errors surfaced by the conversion functions:
`shapeIndexOutOfRange` models Python's IndexError on `data.shape[k]` for a
tuple with fewer than `k+1` entries; `viewSizeMismatch` models torch's
RuntimeError when `.view` is given a shape whose element count differs from
the tensor's. -/
inductive ConvError
  | shapeIndexOutOfRange
  | viewSizeMismatch
deriving DecidableEq, Repr

/-- `torch.Tensor.view`: succeeds iff the requested shape has exactly the
tensor's number of elements (the tensors here are freshly loaded and
contiguous, so no stride restriction applies). -/
def Tensor.view (t : Tensor) (s : List Nat) : Except ConvError Tensor :=
  if s.prod = t.numel then Except.ok { shape := s, dtype := t.dtype, data := t.data }
  else Except.error ConvError.viewSizeMismatch

/-- `torch.Tensor.float`: cast to float32; element values are preserved. -/
def Tensor.float (t : Tensor) : Tensor :=
  { shape := t.shape, dtype := DType.float32, data := t.data }

/-- `read_amplitude_file` (dataset.py lines 208-210):
`torch.from_numpy(data).view(data.shape[0], 1, data.shape[1], data.shape[2]).float()`.
Accessing `data.shape[2]` on an array with fewer than 3 dimensions raises
IndexError; otherwise `.view` decides success by element count. -/
def read_amplitude_file (a : NDArray) : Except ConvError Tensor :=
  match a.shape with
  | n :: h :: w :: _ => (Tensor.view (torch_from_numpy a) [n, 1, h, w]).map Tensor.float
  | _ => Except.error ConvError.shapeIndexOutOfRange

/-- `read_velocity_file` (dataset.py lines 203-205):
`torch.from_numpy(data).float()` — cast only, no shape change. -/
def read_velocity_file (a : NDArray) : Tensor :=
  Tensor.float (torch_from_numpy a)

/-- A file on disk: either a raw `.npy` array or a processed `.pt` blob
holding a serialized `(data, targets)` tensor pair. -/
inductive FileContent
  | raw (a : NDArray)
  | processed (s : Tensor × Tensor)
deriving DecidableEq, Repr

/-- The filesystem: an association list from paths to contents; a write
prepends, so lookup returns the most recent write. -/
abbrev FS := List (String × FileContent)

def FS.lookup : FS → String → Option FileContent
  | [], _ => none
  | (q, c) :: fs, p => if p = q then some c else FS.lookup fs p

/-- `os.path.exists`. -/
def os_path_exists (fs : FS) (p : String) : Bool :=
  (FS.lookup fs p).isSome

/-- `os.path.join` with POSIX separator (all path components here are
relative names without separators). -/
def os_path_join (a b : String) : String :=
  a ++ ("/") ++ b

/-- The six fixed raw-file URLs (class attribute `SNIST.urls`). -/
def SNIST.urls : List String :=
  [("https://raw.githubusercontent.com/LukasMosser/SNIST/master/data/train/train_amplitudes.npy"),
   ("https://raw.githubusercontent.com/LukasMosser/SNIST/master/data/train/train_velocities.npy"),
   ("https://raw.githubusercontent.com/LukasMosser/SNIST/master/data/test/test_amplitudes.npy"),
   ("https://raw.githubusercontent.com/LukasMosser/SNIST/master/data/test/test_velocities.npy"),
   ("https://raw.githubusercontent.com/LukasMosser/SNIST/master/data/test/test_amplitudes_noise_1.npy"),
   ("https://raw.githubusercontent.com/LukasMosser/SNIST/master/data/test/test_amplitudes_noise_2.npy")]

def SNIST.training_file : String := ("training.pt")

def SNIST.test_file_noise_0 : String := ("test_noise_0.pt")

def SNIST.test_file_noise_1 : String := ("test_noise_1.pt")

def SNIST.test_file_noise_2 : String := ("test_noise_2.pt")

/-- `url.rpartition('/')[2]`: the segment after the last slash (the whole
string when no slash is present). -/
def url_filename (url : String) : String :=
  String.mk (url.data.foldl (fun acc c => if c = '/' then [] else acc ++ [c]) [])

/-- `self.raw_folder` = `os.path.join(root, 'SNIST', 'raw')`. -/
def SNIST.raw_folder (root : String) : String :=
  os_path_join (os_path_join root ("SNIST")) ("raw")

/-- `self.processed_folder` = `os.path.join(root, 'SNIST', 'processed')`. -/
def SNIST.processed_folder (root : String) : String :=
  os_path_join (os_path_join root ("SNIST")) ("processed")

/-- Full path of the processed training cache entry. -/
def SNIST.pathT (root : String) : String :=
  os_path_join (SNIST.processed_folder root) SNIST.training_file

/-- Full path of the processed noise-0 test cache entry. -/
def SNIST.path0 (root : String) : String :=
  os_path_join (SNIST.processed_folder root) SNIST.test_file_noise_0

/-- Full path of the processed noise-1 test cache entry. -/
def SNIST.path1 (root : String) : String :=
  os_path_join (SNIST.processed_folder root) SNIST.test_file_noise_1

/-- Full path of the processed noise-2 test cache entry. -/
def SNIST.path2 (root : String) : String :=
  os_path_join (SNIST.processed_folder root) SNIST.test_file_noise_2

/-- `SNIST._check_exists` (dataset.py lines 133-137): conjunction of the four
`os.path.exists` tests on the processed cache entries. -/
def SNIST._check_exists (root : String) (fs : FS) : Bool :=
  os_path_exists fs (SNIST.pathT root) &&
  os_path_exists fs (SNIST.path0 root) &&
  os_path_exists fs (SNIST.path1 root) &&
  os_path_exists fs (SNIST.path2 root)

/-- Observable side effects of the pipeline: a network fetch of a URL, a
raw-to-tensor conversion of a raw file, a serialized write of a processed
cache entry, and a deserializing load of a cache entry. -/
inductive Event
  | fetch (url : String)
  | convert (path : String)
  | write (path : String)
  | load (path : String)
deriving DecidableEq, Repr

/-- Errors of the population step: a transfer failure from `download_url`, a
missing raw file at `np.load`, or a conversion error. -/
inductive DlError
  | fetchFailure (url : String)
  | missingRawFile (path : String)
  | formatError (e : ConvError)
deriving DecidableEq, Repr

/-- The fetch loop of `SNIST.download` (dataset.py lines 149-152): for each
URL, `download_url` deposits the transferred bytes at
`raw_folder/<basename>`; any transfer failure propagates and aborts. The
Fetcher collaborator is a function from URL to the array it would deposit
(`none` = transfer failure). -/
def SNIST.fetchAll (fetch : String → Option NDArray) (rawdir : String) :
    List String → FS → List Event × Except DlError FS
  | [], fs => ([], Except.ok fs)
  | url :: rest, fs =>
    match fetch url with
    | none => ([Event.fetch url], Except.error (DlError.fetchFailure url))
    | some a =>
      let fs1 : FS := (os_path_join rawdir (url_filename url), FileContent.raw a) :: fs
      let r := SNIST.fetchAll fetch rawdir rest fs1
      (Event.fetch url :: r.1, r.2)

/-- `np.load(path)`: read a raw array file. -/
def np_load (fs : FS) (path : String) : Except DlError NDArray :=
  match FS.lookup fs path with
  | some (FileContent.raw a) => Except.ok a
  | _ => Except.error (DlError.missingRawFile path)

/-- `read_amplitude_file` applied to an on-disk path. -/
def read_amplitude_fs (fs : FS) (path : String) : Except DlError Tensor :=
  match np_load fs path with
  | Except.error e => Except.error e
  | Except.ok a =>
    match read_amplitude_file a with
    | Except.error e => Except.error (DlError.formatError e)
    | Except.ok t => Except.ok t

/-- `read_velocity_file` applied to an on-disk path. -/
def read_velocity_fs (fs : FS) (path : String) : Except DlError Tensor :=
  match np_load fs path with
  | Except.error e => Except.error e
  | Except.ok a => Except.ok (read_velocity_file a)

/-- The processing step of `SNIST.download` (dataset.py lines 157-174):
build the four `(features, targets)` pairs. The clean test, noise-1 and
noise-2 sets all read the same `test_velocities.npy` file. -/
def SNIST.buildSets (raw : String) (fs : FS) :
    Except DlError ((Tensor × Tensor) × (Tensor × Tensor) × (Tensor × Tensor) × (Tensor × Tensor)) := do
  let trA ← read_amplitude_fs fs (os_path_join raw ("train_amplitudes.npy"))
  let trV ← read_velocity_fs fs (os_path_join raw ("train_velocities.npy"))
  let t0A ← read_amplitude_fs fs (os_path_join raw ("test_amplitudes.npy"))
  let t0V ← read_velocity_fs fs (os_path_join raw ("test_velocities.npy"))
  let t1A ← read_amplitude_fs fs (os_path_join raw ("test_amplitudes_noise_1.npy"))
  let t1V ← read_velocity_fs fs (os_path_join raw ("test_velocities.npy"))
  let t2A ← read_amplitude_fs fs (os_path_join raw ("test_amplitudes_noise_2.npy"))
  let t2V ← read_velocity_fs fs (os_path_join raw ("test_velocities.npy"))
  Except.ok ((trA, trV), (t0A, t0V), (t1A, t1V), (t2A, t2V))

/-- The conversion events of one population run, in source order. -/
def SNIST.convertEvents (raw : String) : List Event :=
  [Event.convert (os_path_join raw ("train_amplitudes.npy")),
   Event.convert (os_path_join raw ("train_velocities.npy")),
   Event.convert (os_path_join raw ("test_amplitudes.npy")),
   Event.convert (os_path_join raw ("test_velocities.npy")),
   Event.convert (os_path_join raw ("test_amplitudes_noise_1.npy")),
   Event.convert (os_path_join raw ("test_velocities.npy")),
   Event.convert (os_path_join raw ("test_amplitudes_noise_2.npy")),
   Event.convert (os_path_join raw ("test_velocities.npy"))]

/-- `SNIST.download` (dataset.py lines 139-185): short-circuit when the whole
processed cache exists; otherwise fetch the six raw files, convert, and write
the four processed entries (overwriting any present). Returns the event
trace together with the resulting filesystem or the first error. -/
def SNIST.download (fetch : String → Option NDArray) (root : String) (fs : FS) :
    List Event × Except DlError FS :=
  if SNIST._check_exists root fs then ([], Except.ok fs)
  else
    match SNIST.fetchAll fetch (SNIST.raw_folder root) SNIST.urls fs with
    | (evs, Except.error e) => (evs, Except.error e)
    | (evs, Except.ok fs1) =>
      match SNIST.buildSets (SNIST.raw_folder root) fs1 with
      | Except.error e => (evs, Except.error e)
      | Except.ok sets =>
        (evs ++ SNIST.convertEvents (SNIST.raw_folder root) ++
           [Event.write (SNIST.pathT root), Event.write (SNIST.path0 root),
            Event.write (SNIST.path1 root), Event.write (SNIST.path2 root)],
         Except.ok
           ((SNIST.path2 root, FileContent.processed sets.2.2.2) ::
            (SNIST.path1 root, FileContent.processed sets.2.2.1) ::
            (SNIST.path0 root, FileContent.processed sets.2.1) ::
            (SNIST.pathT root, FileContent.processed sets.1) :: fs1))

/-- Python runtime error raised by out-of-range tensor indexing. -/
inductive PyError
  | indexError
deriving DecidableEq, Repr

/-- `t[j]` for a valid non-negative position: the subtensor dropping the
leading dimension (row-major slice of length `prod(shape[1:])`). -/
def Tensor.sub (t : Tensor) (j : Nat) : Tensor :=
  { shape := t.shape.tail, dtype := t.dtype,
    data := (t.data.drop (j * t.shape.tail.prod)).take t.shape.tail.prod }

/-- Leading dimension (`t.size(0)`, which is also `len(t)`). -/
def Tensor.size0 (t : Tensor) : Nat := t.shape.headD 0

/-- `t[index]` with an integer index, following Python/torch semantics:
indices `0 <= i < n` address position `i`; negative indices `-n <= i < 0`
address position `n + i`; anything else raises IndexError. -/
def Tensor.index (t : Tensor) (i : Int) : Except PyError Tensor :=
  if 0 ≤ i ∧ i < (t.size0 : Int) then Except.ok (t.sub i.toNat)
  else if -(t.size0 : Int) ≤ i ∧ i < 0 then Except.ok (t.sub (i + (t.size0 : Int)).toNat)
  else Except.error PyError.indexError

/-- A ready `SNIST` instance: configuration plus the one loaded partition
(`self.data`, `self.targets`). -/
structure Dataset where
  root : String
  train : Bool
  transform : Option (Tensor → Tensor)
  target_transform : Option (Tensor → Tensor)
  data : Tensor
  targets : Tensor

/-- `SNIST.__getitem__` (dataset.py lines 100-120): index both tensors, then
apply the optional transforms independently and return the pair. -/
def SNIST.getitem (ds : Dataset) (index : Int) : Except PyError (Tensor × Tensor) :=
  match Tensor.index ds.data index with
  | Except.error e => Except.error e
  | Except.ok img =>
    match Tensor.index ds.targets index with
    | Except.error e => Except.error e
    | Except.ok target =>
      Except.ok
        (match ds.transform with | some f => f img | none => img,
         match ds.target_transform with | some g => g target | none => target)

/-- `SNIST.__len__` (dataset.py lines 122-123): `len(self.data)`, the feature
tensor's leading dimension. -/
def SNIST.len (ds : Dataset) : Nat := Tensor.size0 ds.data

/-- The `data_file` selection of `SNIST.__init__` (dataset.py lines 88-96):
an if/elif chain with no else branch, so a test-mode `noise` outside
`{0, 1, 2}` leaves the local variable unassigned (`none`). -/
def SNIST.select_data_file (train : Bool) (noise : Int) : Option String :=
  if train then some SNIST.training_file
  else if noise = 0 then some SNIST.test_file_noise_0
  else if noise = 1 then some SNIST.test_file_noise_1
  else if noise = 2 then some SNIST.test_file_noise_2
  else none

/-- Construction failures: a propagated download error, the
`RuntimeError('Dataset not found. You can use download=True to download it')`,
the UnboundLocalError on referencing the unassigned `data_file`, and a
`torch.load` failure on a missing or non-processed entry. -/
inductive InitError
  | downloadFailed (e : DlError)
  | datasetNotFound
  | unboundLocal (name : String)
  | loadFailed (path : String)
deriving DecidableEq, Repr

/-- `SNIST.__init__` (dataset.py lines 75-98): optional download, cache
check (RuntimeError when absent), partition selection, then `torch.load` of
the selected processed entry. Returns the event trace and the ready instance
or the construction error. -/
def SNIST.init (fetch : String → Option NDArray) (root : String) (train : Bool)
    (noise : Int) (transform target_transform : Option (Tensor → Tensor))
    (download : Bool) (fs : FS) : List Event × Except InitError Dataset :=
  match (if download then SNIST.download fetch root fs else ([], Except.ok fs)) with
  | (evs, Except.error e) => (evs, Except.error (InitError.downloadFailed e))
  | (evs, Except.ok fs1) =>
    if SNIST._check_exists root fs1 then
      match SNIST.select_data_file train noise with
      | none => (evs, Except.error (InitError.unboundLocal ("data_file")))
      | some file =>
        let p := os_path_join (SNIST.processed_folder root) file
        match FS.lookup fs1 p with
        | some (FileContent.processed s) =>
          (evs ++ [Event.load p],
           Except.ok { root := root, train := train, transform := transform,
                       target_transform := target_transform, data := s.1, targets := s.2 })
        | _ => (evs ++ [Event.load p], Except.error (InitError.loadFailed p))
    else (evs, Except.error InitError.datasetNotFound)

/-- Deprecated property `SNIST.train_labels` (dataset.py lines 55-58):
returns the warning it emits and `self.targets`. -/
def SNIST.train_labels (ds : Dataset) : String × Tensor :=
  (("train_labels has been renamed targets"), ds.targets)

/-- Deprecated property `SNIST.test_labels` (dataset.py lines 60-63). -/
def SNIST.test_labels (ds : Dataset) : String × Tensor :=
  (("test_labels has been renamed targets"), ds.targets)

/-- Deprecated property `SNIST.train_data` (dataset.py lines 65-68):
returns the warning it emits and `self.data`. -/
def SNIST.train_data (ds : Dataset) : String × Tensor :=
  (("train_data has been renamed data"), ds.data)

/-- Deprecated property `SNIST.test_data` (dataset.py lines 70-73). -/
def SNIST.test_data (ds : Dataset) : String × Tensor :=
  (("test_data has been renamed data"), ds.data)

/-- A tiny concrete amplitude array (shape `[1, 2, 3]`) for concrete runs. -/
def demoAmp : NDArray :=
  { shape := [1, 2, 3], dtype := DType.float64, data := [1, 2, 3, 4, 5, 6] }

/-- A tiny concrete velocity array (shape `[1]`) for concrete runs. -/
def demoVel : NDArray :=
  { shape := [1], dtype := DType.float64, data := [9] }

/-- A concrete Fetcher serving the two velocity URLs a velocity array and
every other URL an amplitude array. -/
def demoFetch (url : String) : Option NDArray :=
  if url = ("https://raw.githubusercontent.com/LukasMosser/SNIST/master/data/train/train_velocities.npy")
    then some demoVel
  else if url = ("https://raw.githubusercontent.com/LukasMosser/SNIST/master/data/test/test_velocities.npy")
    then some demoVel
  else some demoAmp

/-- One concrete population run from an empty filesystem at root `""`. -/
def demoRun : List Event × Except DlError FS :=
  SNIST.download demoFetch ("") []

/-- The filesystem produced by the concrete population run. -/
def demoFS : FS :=
  match demoRun.2 with
  | Except.ok fs => fs
  | Except.error _ => []

/-- A concrete 4-D feature tensor holding one sample. -/
def tA : Tensor := { shape := [1, 1, 1, 1], dtype := DType.float32, data := [5] }

/-- A concrete 1-D target tensor holding one sample. -/
def tB : Tensor := { shape := [1], dtype := DType.float32, data := [7] }

/-- `tA[0]`. -/
def tA0 : Tensor := { shape := [1, 1, 1], dtype := DType.float32, data := [5] }

/-- `tB[0]`. -/
def tB0 : Tensor := { shape := [], dtype := DType.float32, data := [7] }

/-- A concrete filesystem whose processed cache (root `""`) is fully present. -/
def fs4 : FS :=
  [(SNIST.pathT (""), FileContent.processed (tA, tB)),
   (SNIST.path0 (""), FileContent.processed (tA, tB)),
   (SNIST.path1 (""), FileContent.processed (tA, tB)),
   (SNIST.path2 (""), FileContent.processed (tA, tB))]

/-- A concrete ready dataset with one sample (`N = 1`). -/
def dsOne : Dataset :=
  { root := ("r"), train := true, transform := none, target_transform := none,
    data := tA, targets := tB }

theorem FS.lookup_cons (fs : FS) (p q : String) (c : FileContent) :
    FS.lookup ((q, c) :: fs) p = if p = q then some c else FS.lookup fs p := rfl

theorem os_path_exists_cons (fs : FS) (p q : String) (c : FileContent) :
    os_path_exists ((q, c) :: fs) p = true ↔ p = q ∨ os_path_exists fs p = true := by
  by_cases h : p = q <;> simp [os_path_exists, FS.lookup_cons, h]

theorem os_path_join_ne_of_ne (a b c : String) (h : b ≠ c) :
    os_path_join a b ≠ os_path_join a c := by
  intro he
  apply h
  have hd := congrArg String.data he
  simp only [os_path_join, String.data_append, List.append_assoc] at hd
  have hbc := List.append_cancel_left (List.append_cancel_left hd)
  exact congrArg String.mk hbc

theorem SNIST.download_of_exists (fetch : String → Option NDArray) (root : String)
    (fs : FS) (h : SNIST._check_exists root fs = true) :
    SNIST.download fetch root fs = ([], Except.ok fs) := by
  unfold SNIST.download
  rw [if_pos h]

theorem SNIST.check_cons4 (root : String) (fs : FS) (cT c0 c1 c2 : FileContent) :
    SNIST._check_exists root
      ((SNIST.path2 root, c2) :: (SNIST.path1 root, c1) ::
       (SNIST.path0 root, c0) :: (SNIST.pathT root, cT) :: fs) = true := by
  simp [SNIST._check_exists, Bool.and_eq_true, os_path_exists_cons]

theorem SNIST.download_ok_check (fetch : String → Option NDArray) (root : String)
    (fs fs1 : FS) (evs : List Event)
    (h : SNIST.download fetch root fs = (evs, Except.ok fs1)) :
    SNIST._check_exists root fs1 = true := by
  by_cases hex : SNIST._check_exists root fs
  · rw [SNIST.download_of_exists fetch root fs hex] at h
    injection h with h1 h2
    injection h2 with h3
    rw [← h3]
    exact hex
  · unfold SNIST.download at h
    rw [if_neg hex] at h
    rcases hf : SNIST.fetchAll fetch (SNIST.raw_folder root) SNIST.urls fs with ⟨evs1, r1⟩
    rw [hf] at h
    cases r1 with
    | error e => simp at h
    | ok fsm =>
      dsimp only at h
      cases hb : SNIST.buildSets (SNIST.raw_folder root) fsm with
      | error e => rw [hb] at h; simp at h
      | ok sets =>
        rw [hb] at h
        dsimp only at h
        simp only [Prod.mk.injEq, Except.ok.injEq] at h
        rw [← h.2]
        exact SNIST.check_cons4 root fsm _ _ _ _

theorem SNIST.buildSets_shared_velocity (raw : String) (fs : FS)
    (sets : (Tensor × Tensor) × (Tensor × Tensor) × (Tensor × Tensor) × (Tensor × Tensor))
    (h : SNIST.buildSets raw fs = Except.ok sets) :
    sets.2.1.2 = sets.2.2.1.2 ∧ sets.2.1.2 = sets.2.2.2.2 := by
  unfold SNIST.buildSets at h
  cases h1 : read_amplitude_fs fs (os_path_join raw ("train_amplitudes.npy")) with
  | error e => rw [h1] at h; simp [bind, Except.bind] at h
  | ok trA =>
  rw [h1] at h
  cases h2 : read_velocity_fs fs (os_path_join raw ("train_velocities.npy")) with
  | error e => rw [h2] at h; simp [bind, Except.bind] at h
  | ok trV =>
  rw [h2] at h
  cases h3 : read_amplitude_fs fs (os_path_join raw ("test_amplitudes.npy")) with
  | error e => rw [h3] at h; simp [bind, Except.bind] at h
  | ok t0A =>
  rw [h3] at h
  cases hV : read_velocity_fs fs (os_path_join raw ("test_velocities.npy")) with
  | error e => rw [hV] at h; simp [bind, Except.bind] at h
  | ok v =>
  rw [hV] at h
  cases h5 : read_amplitude_fs fs (os_path_join raw ("test_amplitudes_noise_1.npy")) with
  | error e => rw [h5] at h; simp [bind, Except.bind] at h
  | ok t1A =>
  rw [h5] at h
  cases h7 : read_amplitude_fs fs (os_path_join raw ("test_amplitudes_noise_2.npy")) with
  | error e => rw [h7] at h; simp [bind, Except.bind] at h
  | ok t2A =>
  rw [h7] at h
  simp only [bind, Except.bind, Except.ok.injEq] at h
  rw [← h]
  exact ⟨rfl, rfl⟩

theorem Tensor.index_ok_of_mem (t : Tensor) (N : Nat) (i : Int) (h : Tensor.size0 t = N)
    (hi : -(N : Int) ≤ i ∧ i < (N : Int)) : ∃ u, Tensor.index t i = Except.ok u := by
  unfold Tensor.index
  rw [h]
  split_ifs with h1 h2
  · exact ⟨_, rfl⟩
  · exact ⟨_, rfl⟩
  · exact absurd hi (by omega)

theorem Tensor.index_err_of_out (t : Tensor) (N : Nat) (i : Int) (h : Tensor.size0 t = N)
    (hi : i < -(N : Int) ∨ (N : Int) ≤ i) :
    Tensor.index t i = Except.error PyError.indexError := by
  unfold Tensor.index
  rw [h]
  split_ifs with h1 h2
  · exact absurd hi (by omega)
  · exact absurd hi (by omega)
  · rfl

/-- C1 (confirmed): for every source amplitude array of shape `[N, H, W]`
(including the degenerate `N = 0`), `read_amplitude_file` returns a
float32 tensor of shape `[N, 1, H, W]` whose elements are exactly the source
elements in order — a singleton channel dimension is inserted after the
leading dimension. -/
theorem C1_amplitude_conversion_shape (a : NDArray) (n h w : Nat)
    (hs : a.shape = [n, h, w]) :
    read_amplitude_file a =
      Except.ok { shape := [n, 1, h, w], dtype := DType.float32, data := a.data } := by
  simp [read_amplitude_file, hs, Tensor.view, torch_from_numpy, Tensor.numel, Tensor.float,
    Except.map, Nat.mul_assoc, Nat.mul_comm, Nat.mul_one, Nat.one_mul]

/-- Witness for C1 at a degenerate input: an empty `[0, 2, 2]` array still
converts to an empty `[0, 1, 2, 2]` float tensor. -/
theorem C1_witness :
    read_amplitude_file { shape := [0, 2, 2], dtype := DType.float64, data := [] } =
      Except.ok { shape := [0, 1, 2, 2], dtype := DType.float32, data := [] } :=
  C1_amplitude_conversion_shape _ 0 2 2 rfl

/-- C4 counterexample: the claim says conversion fails for every array whose
dimensionality is not exactly 3, but a 4-D source array of shape
`[2, 3, 4, 1]` (24 elements) converts successfully to a `[2, 1, 3, 4]`
tensor, because `.view(2, 1, 3, 4)` only checks the element count. -/
theorem C4_counterexample :
    read_amplitude_file { shape := [2, 3, 4, 1], dtype := DType.float64,
                          data := List.replicate 24 0 } =
      Except.ok { shape := [2, 1, 3, 4], dtype := DType.float32,
                  data := List.replicate 24 0 } := by
  rfl

/-- C4 (corrected): conversion fails (IndexError on the shape tuple) for
every source array with fewer than 3 dimensions; for an array of 3 or more
dimensions `[n, h, w, rest...]` it returns a tensor exactly when the element
count of the target shape `[n, 1, h, w]` equals the source element count —
so arrays of 4 or more dimensions fail with a size-mismatch error unless the
trailing dimensions contribute factor 1 (or the array is empty), in which
case conversion succeeds instead of failing. -/
theorem C4_dimension_check (a : NDArray) :
    (a.shape.length < 3 →
      read_amplitude_file a = Except.error ConvError.shapeIndexOutOfRange) ∧
    (∀ n h w rest, a.shape = n :: h :: w :: rest →
      ((∃ t, read_amplitude_file a = Except.ok t) ↔
        List.prod [n, 1, h, w] = a.shape.prod)) := by
  constructor
  · intro hlen
    cases hs : a.shape with
    | nil => simp [read_amplitude_file, hs]
    | cons n s1 =>
      cases s1 with
      | nil => simp [read_amplitude_file, hs]
      | cons h s2 =>
        cases s2 with
        | nil => simp [read_amplitude_file, hs]
        | cons w rest => rw [hs] at hlen; simp at hlen; omega
  · intro n h w rest hs
    simp only [read_amplitude_file, hs, Tensor.view, torch_from_numpy, Tensor.numel]
    split_ifs with hc
    · exact iff_of_true ⟨_, rfl⟩ hc
    · exact iff_of_false (by simp [Except.map]) hc

/-- Witness for C4's corrected statement: a 1-D array fails with the shape
IndexError. -/
theorem C4_witness :
    read_amplitude_file { shape := [5], dtype := DType.float64,
                          data := [0, 0, 0, 0, 0] } =
      Except.error ConvError.shapeIndexOutOfRange :=
  (C4_dimension_check _).1 (by decide)

/-- C2 counterexample: the claim says `get` fails with IndexError for every
index outside `0 .. N-1`, but on a ready dataset with `N = 1` the index `-1`
is outside that range and `get(-1)` nevertheless succeeds, returning the last
sample — tensor indexing follows Python's negative-index semantics. -/
theorem C2_counterexample :
    SNIST.getitem dsOne (-1) = Except.ok (tA0, tB0) := by
  rfl

/-- C2 (corrected): on a ready dataset whose feature and target tensors have
leading dimension `N`, `len()` returns `N`; `get(i)` succeeds for every
`-N <= i <= N-1` (negative indices address from the end, Python-style) and
fails with IndexError exactly for `i >= N` or `i < -N` — so for `N = 100`
the valid indices are `-100 .. 99`, not `0 .. 99`. -/
theorem C2_length_index_bounds (ds : Dataset) (N : Nat) (i : Int)
    (hd : Tensor.size0 ds.data = N) (ht : Tensor.size0 ds.targets = N) :
    SNIST.len ds = N ∧
    ((-(N : Int) ≤ i ∧ i < (N : Int)) → ∃ p, SNIST.getitem ds i = Except.ok p) ∧
    ((i < -(N : Int) ∨ (N : Int) ≤ i) →
      SNIST.getitem ds i = Except.error PyError.indexError) := by
  refine ⟨hd, ?_, ?_⟩
  · intro hi
    obtain ⟨u, hu⟩ := Tensor.index_ok_of_mem ds.data N i hd hi
    obtain ⟨v, hv⟩ := Tensor.index_ok_of_mem ds.targets N i ht hi
    refine ⟨?_, ?_⟩
    · exact ((match ds.transform with | some f => f u | none => u),
             (match ds.target_transform with | some g => g v | none => v))
    · simp [SNIST.getitem, hu, hv]
  · intro hi
    have hu := Tensor.index_err_of_out ds.data N i hd hi
    simp [SNIST.getitem, hu]

/-- Witness for C2's corrected statement on a concrete one-sample dataset:
index 5 is out of range on both ends' bound and raises IndexError. -/
theorem C2_witness :
    SNIST.getitem dsOne 5 = Except.error PyError.indexError :=
  (C2_length_index_bounds dsOne 1 5 rfl rfl).2.2 (by decide)

/-- C3 (confirmed): on a ready dataset, when both indexings succeed,
`get(i)` with `transform = f` and `target_transform = g` returns
`(f(feature[i]), g(target[i]))` — the transforms applied independently —
and with both transforms `None` it returns the raw stored values. -/
theorem C3_transform_application (root : String) (train : Bool)
    (data targets : Tensor) (f g : Tensor → Tensor) (i : Int) (x y : Tensor)
    (hx : Tensor.index data i = Except.ok x)
    (hy : Tensor.index targets i = Except.ok y) :
    SNIST.getitem { root := root, train := train, transform := some f,
                    target_transform := some g, data := data, targets := targets } i =
      Except.ok (f x, g y) ∧
    SNIST.getitem { root := root, train := train, transform := none,
                    target_transform := none, data := data, targets := targets } i =
      Except.ok (x, y) := by
  constructor <;> simp [SNIST.getitem, hx, hy]

/-- Witness for C3 at a concrete dataset with `f = g = Tensor.float`
and at index 0. -/
theorem C3_witness :
    SNIST.getitem { root := ("r"), train := false, transform := some Tensor.float,
                    target_transform := some Tensor.float, data := tA, targets := tB } 0 =
      Except.ok (Tensor.float tA0, Tensor.float tB0) ∧
    SNIST.getitem { root := ("r"), train := false, transform := none,
                    target_transform := none, data := tA, targets := tB } 0 =
      Except.ok (tA0, tB0) :=
  C3_transform_application ("r") false tA tB Tensor.float Tensor.float 0 tA0 tB0
    (by rfl) (by rfl)

/-- C10 (confirmed): for every constructed dataset, regardless of the train
flag, each deprecated property returns exactly the loaded value it aliases
(`train_labels`/`test_labels` alias `targets`, `train_data`/`test_data`
alias `data`) together with its renamed-attribute warning; the accessors are
pure, so no state is modified. -/
theorem C10_deprecated_aliases (ds : Dataset) :
    SNIST.train_labels ds = (("train_labels has been renamed targets"), ds.targets) ∧
    SNIST.test_labels ds = (("test_labels has been renamed targets"), ds.targets) ∧
    SNIST.train_data ds = (("train_data has been renamed data"), ds.data) ∧
    SNIST.test_data ds = (("test_data has been renamed data"), ds.data) :=
  ⟨rfl, rfl, rfl, rfl⟩

/-- C5 (confirmed): `download()` is idempotent at whole-cache granularity —
when all four processed entries exist it returns immediately with the
filesystem unchanged and an empty event trace (no fetches, conversions or
writes); and after any successful call, a second call in succession is such
a no-op, leaving every cache entry's contents identical. -/
theorem C5_idempotent_population (fetch : String → Option NDArray) (root : String)
    (fs : FS) :
    (SNIST._check_exists root fs = true →
      SNIST.download fetch root fs = ([], Except.ok fs)) ∧
    (∀ evs fs1, SNIST.download fetch root fs = (evs, Except.ok fs1) →
      SNIST.download fetch root fs1 = ([], Except.ok fs1)) := by
  constructor
  · exact SNIST.download_of_exists fetch root fs
  · intro evs fs1 h
    exact SNIST.download_of_exists fetch root fs1
      (SNIST.download_ok_check fetch root fs fs1 evs h)

/-- Witness for C5: a concrete successful population from an empty
filesystem, after which the second call is a no-op with no events. -/
theorem C5_witness :
    SNIST.download demoFetch ("") demoFS = ([], Except.ok demoFS) :=
  (C5_idempotent_population demoFetch ("") []).2 demoRun.1 demoFS (by rfl)

/-- C6 (confirmed): the cache-existence check is true iff all four processed
entries (`training.pt`, `test_noise_0.pt`, `test_noise_1.pt`,
`test_noise_2.pt`) are present at their expected paths — so any single
missing entry makes the whole cache count as absent — and from an absent
cache any successful `download()` rebuilds the cache so that all four
entries are present. -/
theorem C6_cache_existence_check (root : String) (fs : FS) :
    (SNIST._check_exists root fs = true ↔
      (os_path_exists fs (SNIST.pathT root) = true ∧
       os_path_exists fs (SNIST.path0 root) = true ∧
       os_path_exists fs (SNIST.path1 root) = true ∧
       os_path_exists fs (SNIST.path2 root) = true)) ∧
    (∀ fetch evs fs1, SNIST._check_exists root fs = false →
      SNIST.download fetch root fs = (evs, Except.ok fs1) →
      SNIST._check_exists root fs1 = true) := by
  constructor
  · simp [SNIST._check_exists, Bool.and_eq_true, and_assoc]
  · intro fetch evs fs1 _ h
    exact SNIST.download_ok_check fetch root fs fs1 evs h

/-- Witness for C6: the concrete population run rebuilds a fully present
cache from an initially absent one. -/
theorem C6_witness :
    SNIST._check_exists ("") demoFS = true :=
  (C6_cache_existence_check ("") []).2 demoFetch demoRun.1 demoFS (by rfl) (by rfl)

/-- C7 (confirmed): whenever the processed cache is still absent after the
optional download step (in particular when constructing over an empty root
with `download = False`), construction fails with the
`RuntimeError('Dataset not found. You can use download=True ...')` — it does
not succeed and no partition is loaded. -/
theorem C7_missing_cache_fatal (fetch : String → Option NDArray) (root : String)
    (train : Bool) (noise : Int) (tf tg : Option (Tensor → Tensor)) (dl : Bool)
    (fs fs1 : FS) (evs : List Event)
    (hstep : (if dl then SNIST.download fetch root fs else ([], Except.ok fs)) =
      (evs, Except.ok fs1))
    (habs : SNIST._check_exists root fs1 = false) :
    (SNIST.init fetch root train noise tf tg dl fs).2 =
      Except.error InitError.datasetNotFound := by
  unfold SNIST.init
  rw [hstep]
  simp [habs]

/-- Witness for C7: empty root directory, `download = False`. -/
theorem C7_witness :
    (SNIST.init (fun _ => none) ("r") true 0 none none false []).2 =
      Except.error InitError.datasetNotFound :=
  C7_missing_cache_fatal (fun _ => none) ("r") true 0 none none false [] [] []
    (by rfl) (by rfl)

/-- C8 (confirmed): after an actual population (cache absent, `download()`
succeeds), the three processed test entries each hold a `(features, targets)`
pair whose targets component is one and the same tensor — all three test
variants are built from the shared `test_velocities.npy` file, so the
noise-1 and noise-2 targets equal the noise-0 targets value for value; only
the amplitude feature tensors can differ. -/
theorem C8_shared_test_targets (fetch : String → Option NDArray) (root : String)
    (fs fs1 : FS) (evs : List Event)
    (hex : SNIST._check_exists root fs = false)
    (h : SNIST.download fetch root fs = (evs, Except.ok fs1)) :
    ∃ a0 a1 a2 v,
      FS.lookup fs1 (SNIST.path0 root) = some (FileContent.processed (a0, v)) ∧
      FS.lookup fs1 (SNIST.path1 root) = some (FileContent.processed (a1, v)) ∧
      FS.lookup fs1 (SNIST.path2 root) = some (FileContent.processed (a2, v)) := by
  have hne01 : SNIST.path0 root ≠ SNIST.path1 root :=
    os_path_join_ne_of_ne _ _ _ (by decide)
  have hne02 : SNIST.path0 root ≠ SNIST.path2 root :=
    os_path_join_ne_of_ne _ _ _ (by decide)
  have hne12 : SNIST.path1 root ≠ SNIST.path2 root :=
    os_path_join_ne_of_ne _ _ _ (by decide)
  unfold SNIST.download at h
  rw [if_neg (by simp [hex])] at h
  rcases hf : SNIST.fetchAll fetch (SNIST.raw_folder root) SNIST.urls fs with ⟨evs1, r1⟩
  rw [hf] at h
  cases r1 with
  | error e => simp at h
  | ok fsm =>
    dsimp only at h
    cases hb : SNIST.buildSets (SNIST.raw_folder root) fsm with
    | error e => rw [hb] at h; simp at h
    | ok sets =>
      rw [hb] at h
      dsimp only at h
      obtain ⟨hv1, hv2⟩ := SNIST.buildSets_shared_velocity _ _ _ hb
      simp only [Prod.mk.injEq, Except.ok.injEq] at h
      refine ⟨sets.2.1.1, sets.2.2.1.1, sets.2.2.2.1, sets.2.1.2, ?_, ?_, ?_⟩
      · rw [← h.2]
        simp [FS.lookup, hne01, hne02]
      · rw [← h.2]
        simp [FS.lookup, hne12, hv1]
      · rw [← h.2]
        simp [FS.lookup, hv2]

/-- Witness for C8 on the concrete population run. -/
theorem C8_witness :
    ∃ a0 a1 a2 v,
      FS.lookup demoFS (SNIST.path0 ("")) = some (FileContent.processed (a0, v)) ∧
      FS.lookup demoFS (SNIST.path1 ("")) = some (FileContent.processed (a1, v)) ∧
      FS.lookup demoFS (SNIST.path2 ("")) = some (FileContent.processed (a2, v)) :=
  C8_shared_test_targets demoFetch ("") [] demoFS demoRun.1 (by rfl) (by rfl)

/-- C9 (confirmed): constructing with `train = False`, a fully present
cache, and a `noise` value outside `{0, 1, 2}` leaves the `data_file`
selection unassigned (`none`), so construction fails (with the
UnboundLocalError on `data_file`) before reaching the ready state, and the
event trace is empty — in particular no cache entry is deserialized. -/
theorem C9_invalid_noise_unbound (fetch : String → Option NDArray) (root : String)
    (noise : Int) (tf tg : Option (Tensor → Tensor)) (dl : Bool) (fs : FS)
    (hex : SNIST._check_exists root fs = true)
    (h0 : noise ≠ 0) (h1 : noise ≠ 1) (h2 : noise ≠ 2) :
    SNIST.select_data_file false noise = none ∧
    SNIST.init fetch root false noise tf tg dl fs =
      ([], Except.error (InitError.unboundLocal ("data_file"))) := by
  have hsel : SNIST.select_data_file false noise = none := by
    simp [SNIST.select_data_file, h0, h1, h2]
  refine ⟨hsel, ?_⟩
  have hstep : (if dl then SNIST.download fetch root fs else ([], Except.ok fs)) =
      ([], Except.ok fs) := by
    cases dl
    · rfl
    · exact SNIST.download_of_exists fetch root fs hex
  unfold SNIST.init
  rw [hstep]
  simp [hex, hsel]

/-- Witness for C9: a present cache, `train = False`, `noise = 5`. -/
theorem C9_witness :
    SNIST.select_data_file false 5 = none ∧
    SNIST.init demoFetch ("") false 5 none none false fs4 =
      ([], Except.error (InitError.unboundLocal ("data_file"))) :=
  C9_invalid_noise_unbound demoFetch ("") 5 none none false fs4
    (by rfl) (by decide) (by decide) (by decide)
